import Mathlib

/-!
Formal model of the phase state machine and conversation session of the
AI code-generation orchestrator, as a shallow embedding of the TypeScript
sources.  Pure fragments of the source become Lean functions; stateful
methods become explicit state-passing functions; external collaborators
(sandbox, registry, git library, model inference, clock, id generator) are
passed in as parameters.  Each definition cites the source location it
embeds.
-/

/- ------------------------------------------------------------------
   Generation entry guard (single-flight)
   Source: worker/agents/core/simpleGeneratorAgent.ts
     isCodeGenerating  (lines 618-620)
     generateAllFiles  (lines 795-806)
   The in-memory field generationPromise (line 93) is modelled as an
   Option Nat holding the id of the active run, if any.
   ------------------------------------------------------------------ -/

structure AgentConcurrency where
  mvpGenerated : Bool
  pendingUserInputs : List String
  generationPromise : Option Nat
  deriving DecidableEq, Repr

/-- Source line 618-620: the agent reports code generation as active exactly
when its generation promise is non-null. -/
def isCodeGenerating (a : AgentConcurrency) : Bool :=
  a.generationPromise.isSome

/-- Observable outcome of one call to generateAllFiles: which run (if any)
the call started, and which run (if any) the call awaited before its own
promise resolved. -/
structure GenerateCallOutcome where
  startedRun : Option Nat
  awaitedRun : Option Nat
  deriving DecidableEq, Repr

/-- Source lines 795-806.  The body is
  if (mvpGenerated and no pending inputs) return;
  if (isCodeGenerating()) return;            -- returns at once, awaits nothing
  this.generationPromise = launchStateMachine(...); await this.generationPromise;
`fresh` stands for the promise id a newly launched state-machine run
would receive. -/
def generateAllFilesEntry (a : AgentConcurrency) (fresh : Nat) :
    AgentConcurrency × GenerateCallOutcome :=
  if a.mvpGenerated && a.pendingUserInputs.isEmpty then
    (a, ⟨none, none⟩)
  else if isCodeGenerating a then
    (a, ⟨none, none⟩)
  else
    ({ a with generationPromise := some fresh }, ⟨some fresh, some fresh⟩)

/- ------------------------------------------------------------------
   State machine states and entry-state selection
   Source: worker/agents/core/simpleGeneratorAgent.ts
     CurrentDevState     (state.ts, lines 2721-2727 of combined file)
     launchStateMachine  (lines 808-838)
     createNewIncompletePhase (lines 704-714)
   ------------------------------------------------------------------ -/

inductive CurrentDevState where
  | IDLE
  | PHASE_GENERATING
  | PHASE_IMPLEMENTING
  | REVIEWING
  | FINALIZING
  deriving DecidableEq, Repr

structure PhaseConcept where
  name : String
  description : String
  lastPhase : Bool
  deriving DecidableEq, Repr

/-- PhaseState extends PhaseConceptType with a completed flag
(state.ts lines 2716-2719). -/
structure PhaseState where
  name : String
  description : String
  lastPhase : Bool
  completed : Bool
  deriving DecidableEq, Repr

def PhaseState.toConcept (p : PhaseState) : PhaseConcept :=
  ⟨p.name, p.description, p.lastPhase⟩

def PhaseConcept.toIncompleteState (p : PhaseConcept) : PhaseState :=
  ⟨p.name, p.description, p.lastPhase, false⟩

/-- Source lines 818-838: start-state selection of launchStateMachine.
Returns the chosen dev state, the phase concept the run will implement
first (if any), and the possibly extended generatedPhases list.
incompletedPhases = generatedPhases.filter(p => !p.completed);
the code picks incompletedPhases[length-1], i.e. the last one. -/
def launchStateMachineEntry (generatedPhases : List PhaseState)
    (initialPhase : PhaseConcept) :
    CurrentDevState × Option PhaseConcept × List PhaseState :=
  let incompletedPhases := generatedPhases.filter (fun p => !p.completed)
  match incompletedPhases.getLast? with
  | some p => (CurrentDevState.PHASE_IMPLEMENTING, some p.toConcept, generatedPhases)
  | none =>
    if !generatedPhases.isEmpty then
      (CurrentDevState.PHASE_GENERATING, none, generatedPhases)
    else
      (CurrentDevState.PHASE_IMPLEMENTING, some initialPhase,
        generatedPhases ++ [initialPhase.toIncompleteState])

/- ------------------------------------------------------------------
   Post-implementation transition
   Source: worker/agents/core/simpleGeneratorAgent.ts
     decrementPhasesCounter (lines 631-638)
     executePhaseImplementation success tail (lines 1017-1022)
   ------------------------------------------------------------------ -/

structure PostPhaseState where
  phasesCounter : Int
  pendingUserInputs : List String
  deriving DecidableEq, Repr

/-- Source lines 631-638: counter := counter - 1, stored back, returned. -/
def decrementPhasesCounter (st : PostPhaseState) : PostPhaseState × Int :=
  let counter := st.phasesCounter - 1
  ({ st with phasesCounter := counter }, counter)

/-- Source lines 1019-1022: after implementPhase succeeds,
  const phasesCounter = this.decrementPhasesCounter();
  if ((phaseConcept.lastPhase || phasesCounter <= 0)
      && this.state.pendingUserInputs.length === 0) return FINALIZING;
  return PHASE_GENERATING; -/
def executePhaseImplementationSuccess (phase : PhaseConcept)
    (st : PostPhaseState) : PostPhaseState × CurrentDevState :=
  let r := decrementPhasesCounter st
  if (phase.lastPhase = true ∨ r.2 ≤ 0) ∧ r.1.pendingUserInputs = [] then
    (r.1, CurrentDevState.FINALIZING)
  else
    (r.1, CurrentDevState.PHASE_GENERATING)

/- ------------------------------------------------------------------
   Project rename
   Source: worker/agents/core/simpleGeneratorAgent.ts
     updateProjectName (lines 1597-1631)
   The persisted CodeGenState (lines 2731-2760) has BOTH a top-level
   projectName field and blueprint.projectName.
   External effects are modelled by parameters:
     sandboxRenameOk : result of sandbox updateProjectName (false also
                       covers the call throwing, both set ok = false);
     registryResult  : some b = AppService.updateApp returned b
                       (the registry row title is updated when it
                       returns true), none = the call threw.
   ------------------------------------------------------------------ -/

structure Blueprint where
  projectName : String
  title : String
  deriving DecidableEq, Repr

structure RenameAgentState where
  blueprint : Blueprint
  projectName : String
  sandboxInstanceId : Option String
  deriving DecidableEq, Repr

structure RegistryRow where
  title : String
  deriving DecidableEq, Repr

/-- Character class of the slug pattern [a-z0-9-_]. -/
def isSlugChar (c : Char) : Bool :=
  (Char.ofNat 97 ≤ c && c ≤ Char.ofNat 122) ||
  (Char.ofNat 48 ≤ c && c ≤ Char.ofNat 57) ||
  c = Char.ofNat 45 || c = Char.ofNat 95

/-- Source line 1599: the regex test of updateProjectName,
/^[a-z0-9-_]\x7b3,50\x7d$/.test(newName): between 3 and 50 characters,
each a lowercase letter, digit, hyphen or underscore. -/
def validProjectName (s : String) : Bool :=
  3 ≤ s.length && s.length ≤ 50 && s.toList.all isSlugChar

/-- Source lines 1597-1631.  Returns the agent state, the registry row,
the list of broadcast message types emitted, and the boolean result. -/
def updateProjectName (s : RenameAgentState) (reg : RegistryRow)
    (sandboxRenameOk : Bool) (registryResult : Option Bool)
    (newName : String) :
    RenameAgentState × RegistryRow × List String × Bool :=
  if !validProjectName newName then
    -- line 1600: invalid name returns false before any mutation
    (s, reg, [], false)
  else
    -- lines 1601-1605: only blueprint.projectName is rewritten; the
    -- top-level state.projectName field is left untouched
    let s1 : RenameAgentState :=
      { s with blueprint := { s.blueprint with projectName := newName } }
    -- lines 1606-1613: sandbox propagation (throw is caught, ok := false)
    let ok1 : Bool := if s1.sandboxInstanceId.isSome then sandboxRenameOk else true
    -- lines 1614-1621: registry row title update via AppService.updateApp
    let regok : RegistryRow × Bool :=
      match registryResult with
      | some true => ({ reg with title := newName }, true)
      | some false => (reg, false)
      | none => (reg, false)
    -- lines 1622-1626: PROJECT_NAME_UPDATED broadcast, then return ok
    (s1, regok.1, ["projectName_updated"], ok1 && regok.2)

/- ------------------------------------------------------------------
   Deep-debug tool (per-turn call limit and generation guard)
   Source: worker/agents/tools/toolkit/deep-debugger.ts
     createDeepDebuggerTool (lines 6-72); callCount is closed over and
     reset only when buildTools constructs a fresh tool for a new
     conversation turn (customTools.ts lines 39-60).
   ------------------------------------------------------------------ -/

inductive DebugExecOutcome where
  | ok (transcript : String)
  | err (message : String)
  deriving DecidableEq, Repr

inductive DeepDebugToolResult where
  | callLimitExceeded
  | generationInProgress
  | debugInProgress
  | transcript (t : String)
  | failure (e : String)
  deriving DecidableEq, Repr

/-- Source deep-debugger.ts lines 33-70: one invocation of the deep_debug
tool implementation.  `callCount` is the closure counter before the call;
the returned Nat is its value after the call.  Note the order: the counter
is incremented (line 43) BEFORE the isCodeGenerating guard (line 46). -/
def deepDebugToolCall (callCount : Nat) (isGenerating isDebugging : Bool)
    (exec : DebugExecOutcome) : Nat × DeepDebugToolResult :=
  if callCount > 0 then
    (callCount, DeepDebugToolResult.callLimitExceeded)
  else
    let c := callCount + 1
    if isGenerating then
      (c, DeepDebugToolResult.generationInProgress)
    else if isDebugging then
      (c, DeepDebugToolResult.debugInProgress)
    else
      match exec with
      | DebugExecOutcome.ok t => (c, DeepDebugToolResult.transcript t)
      | DebugExecOutcome.err e => (c, DeepDebugToolResult.failure e)

/- ------------------------------------------------------------------
   Deep-debug session loop detection
   Source: src/unnamed/part_009 (assistants/codeDebugger.ts)
     ToolCallRecord / LoopDetectionState (lines 534-543)
     detectRepetition (lines 587-606)
     injectLoopWarning (lines 608-630)
     tool wrapper inside run (lines 661-679)
   ------------------------------------------------------------------ -/

structure ToolCallRecord where
  toolName : String
  args : String
  timestamp : Nat
  deriving DecidableEq, Repr

structure LoopDetectionState where
  recentCalls : List ToolCallRecord
  repetitionWarnings : Nat
  deriving DecidableEq, Repr

/-- Source part_009 lines 587-606: drop records older than 10 minutes,
count identical recent calls, record this call, and report repetition
when the identical call was already made at least twice. -/
def detectRepetition (ld : LoopDetectionState) (now : Nat)
    (toolName args : String) : LoopDetectionState × Bool :=
  let recent := ld.recentCalls.filter (fun c => now - c.timestamp < 600000)
  let matching := recent.filter (fun c => c.toolName == toolName && c.args == args)
  let recent1 := recent ++ [⟨toolName, args, now⟩]
  ({ ld with recentCalls := recent1 }, matching.length ≥ 2)

/-- Source part_009 lines 611-627 (warning text abbreviated; only its
injection matters for the properties proved here). -/
def loopWarningMessage (toolName : String) (nth : Nat) : String :=
  "CRITICAL: REPETITION DETECTED - you attempted to execute " ++ toolName ++
    " with identical arguments for the " ++ toString nth ++ "th time"

structure WrappedCallResult where
  loopState : LoopDetectionState
  injectedMessages : List String
  executed : Bool
  result : String
  deriving DecidableEq, Repr

/-- Source part_009 lines 661-679: the per-tool wrapper built in run().
When detectRepetition fires, injectLoopWarning appends a warning user
message to the conversation (lines 608-630) - but the blocking early
return is commented out in the source (lines 670-674), so control falls
through and the underlying tool implementation is executed in every
case.  `implResult` stands for the value the wrapped implementation
returns; `executed` records whether it was invoked. -/
def wrappedToolCall (ld : LoopDetectionState) (now : Nat)
    (toolName args implResult : String) : WrappedCallResult :=
  let dr := detectRepetition ld now toolName args
  if dr.2 then
    let ld2 : LoopDetectionState :=
      { dr.1 with repetitionWarnings := dr.1.repetitionWarnings + 1 }
    { loopState := ld2,
      injectedMessages := [loopWarningMessage toolName ld2.repetitionWarnings],
      executed := true, result := implResult }
  else
    { loopState := dr.1, injectedMessages := [], executed := true,
      result := implResult }

/- ------------------------------------------------------------------
   FileManager.saveGeneratedFiles
   Source: worker/services/sandbox/utils.ts (FileManager, lines 159-355)
     getTemplateFile (lines 328-344), getFile (lines 346-354),
     getGeneratedFile (lines 215-218), saveGeneratedFiles (lines 240-294).
   generatedFilesMap is a JS object: insertion-ordered map where
   assigning an existing key keeps its position and a new key is
   appended; modelled as an association list with upsert.
   External collaborators as parameters:
     createPatch : the jsdiff Diff.createPatch function;
     gitOk       : whether git commit / stage succeeds (false = throws;
                   the throw is caught and swallowed, lines 290-292);
     now         : Date.now() at save time (line 263).
   ------------------------------------------------------------------ -/

structure FileOutputType where
  filePath : String
  fileContents : String
  filePurpose : String
  deriving DecidableEq, Repr

/-- The FileState object built at utils.ts lines 260-266:
lasthash := "", lastmodified := Date.now(), lastDiff as computed.
(The unmerged : [] field carries no information and is omitted.) -/
structure FileState where
  filePath : String
  fileContents : String
  filePurpose : String
  lasthash : String
  lastmodified : Nat
  lastDiff : String
  deriving DecidableEq, Repr

def FilesMap := List (String × FileState)
  deriving DecidableEq, Repr

/-- JS object property read m[k] on an insertion-ordered object. -/
def lookupFile : FilesMap → String → Option FileState
  | [], _ => none
  | kv :: rest, k => if kv.1 = k then some kv.2 else lookupFile rest k

/-- JS object property write m[k] = v: an existing key keeps its
position, a new key is appended. -/
def upsertFile (m : FilesMap) (k : String) (v : FileState) : FilesMap :=
  if List.any m (fun kv => kv.1 == k) then
    List.map (fun kv => if kv.1 = k then (k, v) else kv) m
  else
    List.append m [(k, v)]

/-- Source utils.ts lines 328-354: getFile first searches the generated
files of the current state, then the template; a template entry whose
contents are missing or empty yields null. -/
def getFile (stateMap : FilesMap) (templateAllFiles : List (String × String))
    (filePath : String) : Option FileOutputType :=
  match lookupFile stateMap filePath with
  | some fs => some ⟨fs.filePath, fs.fileContents, fs.filePurpose⟩
  | none =>
    match (List.find? (fun kv => kv.1 == filePath) templateAllFiles).map (fun kv => kv.2) with
    | some c => if c = "" then none else some ⟨filePath, c, "Bootstrapped template file"⟩
    | none => none

inductive GitAction where
  | commit (files : List FileState) (message : String)
  | stage (files : List FileState)
  deriving DecidableEq, Repr

structure FMState where
  generatedFilesMap : FilesMap
  gitLog : List GitAction
  deriving DecidableEq, Repr

/-- Source utils.ts lines 244-269: the per-file loop of
saveGeneratedFiles.  `m` is the local filesMap copy being updated;
`origMap` is the state map read by this.getFile (the state is only
replaced after the loop, line 271).  For each file:
  oldContents = filesMap[path]?.fileContents
                ?? (getFile(path)?.fileContents || "");
  lastDiff    = contents changed ? Diff.createPatch(...) : "";
and the new FileState is written back into the local map. -/
def saveLoop (createPatch : String → String → String → String) (now : Nat)
    (templateAllFiles : List (String × String)) (origMap : FilesMap) :
    List FileOutputType → FilesMap → FilesMap × List FileState
  | [], m => (m, [])
  | f :: rest, m =>
    let oldContents :=
      match lookupFile m f.filePath with
      | some oldFile => oldFile.fileContents
      | none =>
        match getFile origMap templateAllFiles f.filePath with
        | some g => g.fileContents
        | none => ""
    let lastDiff :=
      if oldContents ≠ f.fileContents then
        createPatch f.filePath oldContents f.fileContents
      else ""
    let fs : FileState :=
      ⟨f.filePath, f.fileContents, f.filePurpose, "", now, lastDiff⟩
    let r := saveLoop createPatch now templateAllFiles origMap rest
      (upsertFile m f.filePath fs)
    (r.1, fs :: r.2)

/-- Source utils.ts lines 240-294.  After the loop the state map is
replaced with the local copy (lines 271-274); then, when any produced
lastDiff is non-empty, the files are committed (commit message given)
or staged (lines 276-289); a git failure is caught and swallowed
(lines 290-292) and the new FileStates are returned regardless. -/
def saveGeneratedFiles (createPatch : String → String → String → String)
    (gitOk : Bool) (now : Nat) (templateAllFiles : List (String × String))
    (st : FMState) (files : List FileOutputType)
    (commitMessage : Option String) : FMState × List FileState :=
  let r := saveLoop createPatch now templateAllFiles st.generatedFilesMap
    files st.generatedFilesMap
  let stAfterSet : FMState := { st with generatedFilesMap := r.1 }
  let shouldCommit :=
    !r.2.isEmpty && r.2.any (fun fs => fs.lastDiff != "")
  if shouldCommit then
    if gitOk then
      match commitMessage with
      | some msg =>
        ({ stAfterSet with gitLog := stAfterSet.gitLog ++ [GitAction.commit r.2 msg] }, r.2)
      | none =>
        ({ stAfterSet with gitLog := stAfterSet.gitLog ++ [GitAction.stage r.2] }, r.2)
    else
      (stAfterSet, r.2)
  else
    (stAfterSet, r.2)

/- ------------------------------------------------------------------
   State migration
   Source: src/unnamed/part_002 (StateMigration.migrateIfNeeded, lines 7-203).
   JS fields that may be absent or undefined are modelled as Option;
   the JS falsy test (undefined or "") is jsTruthy; `a || b` on strings
   is jsOrS.  Date.now() is the `now` parameter (the clock during one
   migration pass); generateNanoId() is the `nanoid` parameter.
   ------------------------------------------------------------------ -/

def jsTruthy : Option String → Bool
  | none => false
  | some s => s ≠ ""

/-- JS `a || b` on possibly-undefined strings. -/
def jsOrS (a b : Option String) : Option String :=
  if jsTruthy a then a else b

/-- Generated file entry as stored in generatedFilesMap.  Old-schema
snake_case keys and the new camelCase keys are separate optional fields
(`'file_path' in file` tests presence).  `lastDiff` stands for the
extra FileState props, which the old-format rewrite drops. -/
structure MigFile where
  filePath : Option String
  fileContents : Option String
  filePurpose : Option String
  file_path : Option String
  file_contents : Option String
  file_purpose : Option String
  lastDiff : Option String
  deriving DecidableEq, Repr

/-- Source part_002 line 15: hasOldFormat. -/
def hasOldFormat (f : MigFile) : Bool :=
  f.file_path.isSome || f.file_contents.isSome || f.file_purpose.isSome

/-- Source part_002 lines 14-25: migrateFile. -/
def migrateFile (f : MigFile) : MigFile :=
  if hasOldFormat f then
    { filePath := jsOrS f.filePath f.file_path,
      fileContents := jsOrS f.fileContents f.file_contents,
      filePurpose := jsOrS f.filePurpose f.file_purpose,
      file_path := none, file_contents := none, file_purpose := none,
      lastDiff := none }
  else f

structure MigMessage where
  conversationId : Option String
  role : Option String
  content : String
  deriving DecidableEq, Repr

/-- Fallback dedup key built at part_002 lines 56-60 when the message
has no (truthy) conversationId:
role (or "unknown") ++ "_" ++ first 100 chars of content ++ "_" ++ Date.now().
Structured (non-string) contents are represented by their JSON
serialization in `content`. -/
def fallbackKey (now : Nat) (m : MigMessage) : String :=
  (match m.role with
   | some r => if r = "" then "unknown" else r
   | none => "unknown") ++ "_" ++ (m.content.take 100) ++ "_" ++ toString now

/-- Source part_002 lines 53-60: `let key = message.conversationId;
if (!key) key = fallback`. -/
def msgKey (now : Nat) (m : MigMessage) : String :=
  match m.conversationId with
  | some cid => if cid = "" then fallbackKey now m else cid
  | none => fallbackKey now m

/-- Source part_002 lines 50-66: the seen-set sieve keeping the first
message for each key. -/
def dedupByKey (now : Nat) : List MigMessage → List String → List MigMessage
  | [], _ => []
  | m :: ms, seen =>
    let k := msgKey now m
    if k ∈ seen then dedupByKey now ms seen
    else m :: dedupByKey now ms (k :: seen)

/-- Leading-decimal-digits parse composed with `|| 0`: JS
parseInt(s) || 0 on the numeric fragment of a conversation id
("conv-<millis>-<rand>"); no leading digits (NaN) gives 0. -/
def parseIntOr0 (s : String) : Nat :=
  (s.toList.takeWhile Char.isDigit).foldl
    (fun acc c => acc * 10 + (c.toNat - 48)) 0

/-- Source part_002 lines 69-77: getTimestamp. -/
def msgTimestamp (m : MigMessage) : Nat :=
  match m.conversationId with
  | some cid =>
    if cid.startsWith "conv-" then
      match (cid.splitOn "-").get? 1 with
      | some p => parseIntOr0 p
      | none => 0
    else 0
  | none => 0

/-- Comparator of the sort at part_002 lines 68-79:
(a, b) => getTimestamp(a) - getTimestamp(b). -/
def tsLe (a b : MigMessage) : Prop :=
  msgTimestamp a ≤ msgTimestamp b

instance : DecidableRel tsLe := fun _ _ => Nat.decLe _ _

instance : IsTotal MigMessage tsLe :=
  ⟨fun a b => Nat.le_total (msgTimestamp a) (msgTimestamp b)⟩

instance : IsTrans MigMessage tsLe :=
  ⟨fun _ _ _ h1 h2 => Nat.le_trans h1 h2⟩

/-- Substring test (JS String.prototype.includes). -/
def containsSub (s sub : String) : Bool :=
  (List.range (s.length + 1)).any (fun i => sub.isPrefixOf (s.drop i))

/-- Source part_002 lines 86-87: internal-memo classification. -/
def isInternalMemo (m : MigMessage) : Bool :=
  containsSub m.content "**<Internal Memo>**" ||
  containsSub m.content "Project Updates:"

/-- Source part_002 lines 45-106 for a non-empty conversation: dedup by
key, stable sort by timestamp (JS Array.prototype.sort is required to
be stable; modelled by Mathlib insertionSort, which is stable), then
drop internal memos when more than MIN_MESSAGES_FOR_CLEANUP = 25
messages remain. -/
def processConversation (now : Nat) (msgs : List MigMessage) : List MigMessage :=
  let uniqueMessages := dedupByKey now msgs []
  let sortedMessages := uniqueMessages.insertionSort tsLe
  if 25 < sortedMessages.length then
    sortedMessages.filter (fun m => !isInternalMemo m)
  else sortedMessages

structure MigInferenceContext where
  hasUserApiKeys : Bool
  deriving DecidableEq, Repr

structure MigTemplateDetails where
  name : String
  deriving DecidableEq, Repr

structure MigBlueprint where
  projectName : Option String
  deriving DecidableEq, Repr

/-- Persisted CodeGenState restricted to the fields migrateIfNeeded
reads or writes; key-presence tests (`'x' in state`) become Option /
Bool fields. -/
structure MigState where
  generatedFilesMap : List (String × MigFile)
  conversationMessages : List MigMessage
  inferenceContext : Option MigInferenceContext
  hasLatestScreenshot : Bool
  projectUpdatesAccumulator : Option (List String)
  templateDetails : Option MigTemplateDetails
  templateName : Option String
  blueprint : Option MigBlueprint
  projectName : Option String
  query : Option String
  deriving DecidableEq, Repr

/-- Modelled from the spec: `generateProjectName` lives in
worker/agents/utils/templateCustomizer.ts, which is not among the
provided sources.  Per the spec (MigrationEngine): the missing name is
generated "from blueprint/template/query + a fresh nanoid, capped to 20
chars"; the cap applies to the base prefix (the call sites pass it as a
PREFIX_MAX_LENGTH).  The base may be undefined when blueprint, template
name and query are all absent. -/
def generateProjectName (base : Option String) (nanoid : String)
    (maxPrefixLength : Nat) : String :=
  (base.getD "").take maxPrefixLength ++ "-" ++ nanoid

/-- Source part_002 lines 14-38: the file-schema pass sets the
migration flag exactly when migrateFile returned a fresh object, i.e.
when some entry has the old format. -/
def filesNeedMigration (s : MigState) : Bool :=
  s.generatedFilesMap.any (fun kf => hasOldFormat kf.2)

def migratedFilesMap (s : MigState) : List (String × MigFile) :=
  s.generatedFilesMap.map (fun kf => (kf.1, migrateFile kf.2))

/-- Source part_002 lines 44-47 and 103-106: a non-empty conversation
is cleaned up, an empty one is left alone. -/
def migratedConversation (now : Nat) (s : MigState) : List MigMessage :=
  if s.conversationMessages.isEmpty then s.conversationMessages
  else processConversation now s.conversationMessages

/-- Source part_002 lines 108-117: the conversation migration flag is
set exactly when the message count changed. -/
def convNeedsMigration (now : Nat) (s : MigState) : Bool :=
  decide ((migratedConversation now s).length ≠
    s.conversationMessages.length)

/-- Source part_002 lines 123-131: legacy userApiKeys removal;
the Bool is the migration flag. -/
def migratedInferenceContext (s : MigState) :
    Option MigInferenceContext × Bool :=
  match s.inferenceContext with
  | some c =>
    if c.hasUserApiKeys then (some { c with hasUserApiKeys := false }, true)
    else (some c, false)
  | none => (none, false)

/-- Source part_002 lines 149-156: templateDetails to templateName;
the Bool is the migration flag. -/
def migratedTemplate (s : MigState) : Option String × Bool :=
  match s.templateDetails with
  | some td => (some td.name, true)
  | none => (s.templateName, false)

/-- Source part_002 lines 161-171: generate projectName when missing;
the Bool is the migration flag. -/
def migratedProjectName (nanoid : String) (s : MigState) :
    Option String × Bool :=
  if jsTruthy s.projectName then (s.projectName, false)
  else
    (some (generateProjectName
      (jsOrS (match s.blueprint with
              | some bp => bp.projectName
              | none => none)
        (jsOrS (migratedTemplate s).1 s.query)) nanoid 20), true)

/-- Source part_002: the accumulated needsMigration flag (set at lines
36, 116, 130, 138, 143, 154, 169). -/
def needsMigration (now : Nat) (nanoid : String) (s : MigState) : Bool :=
  filesNeedMigration s || convNeedsMigration now s ||
  (migratedInferenceContext s).2 || s.hasLatestScreenshot ||
  s.projectUpdatesAccumulator.isNone || (migratedTemplate s).2 ||
  (migratedProjectName nanoid s).2

/-- Source part_002 lines 8-202: StateMigration.migrateIfNeeded.
Returns some newState when any migration fired (lines 173-198), null
(none) otherwise; the new state drops latestScreenshot and
templateDetails and resets projectUpdatesAccumulator to []. -/
def migrateIfNeeded (now : Nat) (nanoid : String) (s : MigState) :
    Option MigState :=
  if needsMigration now nanoid s then
    some { generatedFilesMap := migratedFilesMap s,
           conversationMessages := migratedConversation now s,
           inferenceContext := (migratedInferenceContext s).1,
           hasLatestScreenshot := false,
           projectUpdatesAccumulator := some [],
           templateDetails := none,
           templateName := (migratedTemplate s).1,
           blueprint := s.blueprint,
           projectName := (migratedProjectName nanoid s).1,
           query := s.query }
  else none

/- ==================================================================
   Theorems
   ================================================================== -/

/-- C1 (counterexample).  The claim asserts that every caller of
generateAllFiles made while a run is active awaits the completion of
the one underlying run before its own call resolves.  On the code this
is false: with run 1 active (generationPromise = some 1), a further
call hits the isCodeGenerating guard and returns immediately - it
starts no run and awaits nothing, in particular it does not await run 1
(awaiting is a separate API, waitForGeneration, lines 1889-1900). -/
theorem generateAllFiles_concurrent_caller_does_not_await :
    isCodeGenerating ⟨false, [], some 1⟩ = true ∧
    (generateAllFilesEntry ⟨false, [], some 1⟩ 2).1 = ⟨false, [], some 1⟩ ∧
    (generateAllFilesEntry ⟨false, [], some 1⟩ 2).2.startedRun = none ∧
    ¬ (generateAllFilesEntry ⟨false, [], some 1⟩ 2).2.awaitedRun = some 1 := by
  decide

/-- C1 (amended).  generateAllFiles is single-flight in the no-op
sense: while a generation run is active (generationPromise non-null),
every further call leaves the agent unchanged, starts no second
state-machine run, and resolves immediately without awaiting the
underlying run. -/
theorem generateAllFiles_single_flight_noop (a : AgentConcurrency)
    (fresh p : Nat) (h : a.generationPromise = some p) :
    generateAllFilesEntry a fresh = (a, ⟨none, none⟩) := by
  unfold generateAllFilesEntry isCodeGenerating
  rw [h]
  split <;> simp

theorem generateAllFiles_single_flight_noop_witness :
    generateAllFilesEntry ⟨true, ["fix the header"], some 3⟩ 9 =
      (⟨true, ["fix the header"], some 3⟩, ⟨none, none⟩) :=
  generateAllFiles_single_flight_noop ⟨true, ["fix the header"], some 3⟩ 9 3 (by decide)

/-- C5.  Start-state selection of a generation run (source lines
818-838): with a non-completed phase present the run starts in
PHASE_IMPLEMENTING on the last incomplete phase; with only completed
phases it starts in PHASE_GENERATING; with no phases it takes
blueprint.initialPhase, records it as a new incomplete phase, and
starts in PHASE_IMPLEMENTING. -/
theorem launchStateMachine_start_state_selection
    (phases : List PhaseState) (init : PhaseConcept) :
    (∀ p, (phases.filter (fun q => !q.completed)).getLast? = some p →
      launchStateMachineEntry phases init =
        (CurrentDevState.PHASE_IMPLEMENTING, some p.toConcept, phases)) ∧
    (phases.filter (fun q => !q.completed) = [] → phases ≠ [] →
      launchStateMachineEntry phases init =
        (CurrentDevState.PHASE_GENERATING, none, phases)) ∧
    (phases = [] →
      launchStateMachineEntry phases init =
        (CurrentDevState.PHASE_IMPLEMENTING, some init,
          [init.toIncompleteState])) := by
  refine ⟨fun p hp => ?_, fun hf hne => ?_, fun hnil => ?_⟩
  · simp only [launchStateMachineEntry, hp]
  · simp only [launchStateMachineEntry, hf]
    simp [hne]
  · subst hnil
    rfl

/-- C5 (witness): the stored phases [Setup completed, API incomplete]
make the run enter PHASE_IMPLEMENTING on "API". -/
theorem launchStateMachine_start_state_selection_witness :
    launchStateMachineEntry
        [⟨"Setup", "d1", false, true⟩, ⟨"API", "d2", false, false⟩]
        ⟨"Init", "d0", false⟩ =
      (CurrentDevState.PHASE_IMPLEMENTING, some ⟨"API", "d2", false⟩,
        [⟨"Setup", "d1", false, true⟩, ⟨"API", "d2", false, false⟩]) :=
  (launchStateMachine_start_state_selection _ _).1
    ⟨"API", "d2", false, false⟩ (by decide)

/-- C6.  A successful phase implementation decrements phasesCounter by
exactly one and transitions to FINALIZING iff (lastPhase or the
decremented counter is at most 0) and pendingUserInputs is empty; in
every other successful case it transitions to PHASE_GENERATING
(source lines 1019-1022 and 631-638). -/
theorem executePhaseImplementation_counter_and_transition
    (phase : PhaseConcept) (st : PostPhaseState) :
    (executePhaseImplementationSuccess phase st).1.phasesCounter =
        st.phasesCounter - 1 ∧
    (executePhaseImplementationSuccess phase st).1.pendingUserInputs =
        st.pendingUserInputs ∧
    ((executePhaseImplementationSuccess phase st).2 =
        CurrentDevState.FINALIZING ↔
      ((phase.lastPhase = true ∨ st.phasesCounter - 1 ≤ 0) ∧
        st.pendingUserInputs = [])) ∧
    ((executePhaseImplementationSuccess phase st).2 =
        CurrentDevState.FINALIZING ∨
     (executePhaseImplementationSuccess phase st).2 =
        CurrentDevState.PHASE_GENERATING) := by
  simp only [executePhaseImplementationSuccess, decrementPhasesCounter]
  split_ifs with h
  · exact ⟨rfl, rfl, iff_of_true rfl h, Or.inl rfl⟩
  · exact ⟨rfl, rfl, iff_of_false (by decide) h, Or.inr rfl⟩

/-- C6 (witness): implementing a lastPhase phase with empty pending
inputs transitions to FINALIZING. -/
theorem executePhaseImplementation_counter_and_transition_witness :
    (executePhaseImplementationSuccess ⟨"Finalization", "d", true⟩
        ⟨5, []⟩).2 = CurrentDevState.FINALIZING :=
  (executePhaseImplementation_counter_and_transition
      ⟨"Finalization", "d", true⟩ ⟨5, []⟩).2.2.1.mpr (by decide)

/-- C9.  For every newName rejected by the slug pattern
[a-z0-9-_] of length 3 to 50, updateProjectName returns false and
performs no mutation at all: state, registry and broadcast list are
untouched (source line 1599-1600 returns before any effect). -/
theorem updateProjectName_invalid_name_noop (s : RenameAgentState)
    (reg : RegistryRow) (sandboxRenameOk : Bool)
    (registryResult : Option Bool) (newName : String)
    (h : validProjectName newName = false) :
    updateProjectName s reg sandboxRenameOk registryResult newName =
      (s, reg, [], false) := by
  unfold updateProjectName
  simp [h]

theorem updateProjectName_invalid_name_noop_witness :
    updateProjectName ⟨⟨"old-name", "T"⟩, "old-name", some "i1"⟩
        ⟨"old-name"⟩ true (some true) "My App" =
      (⟨⟨"old-name", "T"⟩, "old-name", some "i1"⟩, ⟨"old-name"⟩, [], false) :=
  updateProjectName_invalid_name_noop _ _ _ _ "My App" (by decide)

/-- C2 (counterexample).  The claim asserts that after a successful
rename, the project top-level projectName field in the persisted state
also equals the new name.  On the code this is false: a successful
rename of "old-name" to "new-name" returns true and rewrites
blueprint.projectName and the registry title, but updateProjectName
(lines 1597-1631) never writes the top-level state.projectName, which
keeps its old value. -/
theorem updateProjectName_top_level_field_stale :
    (updateProjectName ⟨⟨"old-name", "T"⟩, "old-name", none⟩
        ⟨"old-name"⟩ true (some true) "new-name").2.2.2 = true ∧
    (updateProjectName ⟨⟨"old-name", "T"⟩, "old-name", none⟩
        ⟨"old-name"⟩ true (some true) "new-name").1.blueprint.projectName =
      "new-name" ∧
    ¬ (updateProjectName ⟨⟨"old-name", "T"⟩, "old-name", none⟩
        ⟨"old-name"⟩ true (some true) "new-name").1.projectName =
      "new-name" := by
  decide

/-- C2 (amended).  After every successful rename (updateProjectName
returns true), blueprint.projectName and the registry row title equal
the new name, while the top-level projectName field of the persisted
state is left unchanged. -/
theorem updateProjectName_success_propagation (s : RenameAgentState)
    (reg : RegistryRow) (sandboxRenameOk : Bool)
    (registryResult : Option Bool) (newName : String)
    (h : (updateProjectName s reg sandboxRenameOk registryResult
        newName).2.2.2 = true) :
    (updateProjectName s reg sandboxRenameOk registryResult
        newName).1.blueprint.projectName = newName ∧
    (updateProjectName s reg sandboxRenameOk registryResult
        newName).2.1.title = newName ∧
    (updateProjectName s reg sandboxRenameOk registryResult
        newName).1.projectName = s.projectName := by
  unfold updateProjectName at h ⊢
  by_cases hv : validProjectName newName
  · rcases registryResult with _ | b
    · simp [hv] at h
    · cases b
      · simp [hv] at h
      · simp [hv]
  · simp [hv] at h

theorem updateProjectName_success_propagation_witness :
    (updateProjectName ⟨⟨"old-name", "T"⟩, "old-name", none⟩
        ⟨"old-name"⟩ true (some true) "new-name").1.blueprint.projectName =
      "new-name" ∧
    (updateProjectName ⟨⟨"old-name", "T"⟩, "old-name", none⟩
        ⟨"old-name"⟩ true (some true) "new-name").2.1.title = "new-name" ∧
    (updateProjectName ⟨⟨"old-name", "T"⟩, "old-name", none⟩
        ⟨"old-name"⟩ true (some true) "new-name").1.projectName =
      "old-name" :=
  updateProjectName_success_propagation
    ⟨⟨"old-name", "T"⟩, "old-name", none⟩ ⟨"old-name"⟩ true (some true)
    "new-name" (by decide)

/-- C3 (counterexample).  The claim asserts that a deep_debug
invocation rejected by the GENERATION_IN_PROGRESS guard does not
consume the one-call-per-turn allowance, so that a retry in the same
turn (after wait_for_generation) produces a transcript.  On the code
this is false: callCount is incremented (line 43) before the
isCodeGenerating guard (line 46), so the failed attempt leaves
callCount = 1 and the same-turn retry is rejected with
CALL_LIMIT_EXCEEDED instead of producing a transcript. -/
theorem deep_debug_same_turn_retry_blocked :
    (deepDebugToolCall 0 true false (DebugExecOutcome.ok "T")).2 =
      DeepDebugToolResult.generationInProgress ∧
    (deepDebugToolCall
        (deepDebugToolCall 0 true false (DebugExecOutcome.ok "T")).1
        false false (DebugExecOutcome.ok "T")).2 =
      DeepDebugToolResult.callLimitExceeded ∧
    ¬ (deepDebugToolCall
        (deepDebugToolCall 0 true false (DebugExecOutcome.ok "T")).1
        false false (DebugExecOutcome.ok "T")).2 =
      DeepDebugToolResult.transcript "T" := by
  decide

/-- C3 (amended).  A deep_debug invocation during code generation
returns the GENERATION_IN_PROGRESS error and consumes the
one-call-per-turn allowance: a retry in the same turn returns
CALL_LIMIT_EXCEEDED; only in a fresh turn (the counter is rebuilt at 0
by buildTools) does a retry after generation completes produce a
transcript. -/
theorem deep_debug_turn_allowance (exec : DebugExecOutcome)
    (isDebugging : Bool) :
    deepDebugToolCall 0 true isDebugging exec =
      (1, DeepDebugToolResult.generationInProgress) ∧
    (deepDebugToolCall 1 false false exec).2 =
      DeepDebugToolResult.callLimitExceeded ∧
    (∀ t, exec = DebugExecOutcome.ok t →
      deepDebugToolCall 0 false false exec =
        (1, DeepDebugToolResult.transcript t)) := by
  refine ⟨rfl, rfl, fun t ht => ?_⟩
  subst ht
  rfl

theorem deep_debug_turn_allowance_witness :
    deepDebugToolCall 0 false false (DebugExecOutcome.ok "T") =
      (1, DeepDebugToolResult.transcript "T") :=
  (deep_debug_turn_allowance (DebugExecOutcome.ok "T") false).2.2 "T" rfl

/-- C4 (counterexample).  The claim asserts that when the deep-debug
loop-detection guard fires, the underlying tool implementation is not
executed.  On the code this is false: the early blocking return inside
the wrapper is commented out (part_009 lines 670-674), so after
injecting the warning the wrapper falls through and executes the tool.
With two identical recent calls already recorded, the third call
triggers the guard (warning injected) and the tool still runs. -/
theorem loop_guard_still_executes_tool :
    (detectRepetition ⟨[⟨"t", "a", 0⟩, ⟨"t", "a", 0⟩], 0⟩ 0 "t" "a").2 =
      true ∧
    ¬ (wrappedToolCall ⟨[⟨"t", "a", 0⟩, ⟨"t", "a", 0⟩], 0⟩ 0 "t" "a"
        "out").injectedMessages = [] ∧
    (wrappedToolCall ⟨[⟨"t", "a", 0⟩, ⟨"t", "a", 0⟩], 0⟩ 0 "t" "a"
        "out").executed = true := by
  decide

/-- C4 (amended).  When the loop-detection guard fires, a warning
message is injected into the model conversation AND the tool
implementation is still executed (its result is returned unchanged);
the guard does not block execution. -/
theorem loop_guard_warns_and_executes (ld : LoopDetectionState)
    (now : Nat) (toolName args implResult : String)
    (h : (detectRepetition ld now toolName args).2 = true) :
    (wrappedToolCall ld now toolName args implResult).injectedMessages =
      [loopWarningMessage toolName
        ((detectRepetition ld now toolName args).1.repetitionWarnings + 1)] ∧
    (wrappedToolCall ld now toolName args implResult).executed = true ∧
    (wrappedToolCall ld now toolName args implResult).result =
      implResult := by
  unfold wrappedToolCall
  simp [h]

theorem loop_guard_warns_and_executes_witness :
    (wrappedToolCall ⟨[⟨"t", "a", 0⟩, ⟨"t", "a", 0⟩], 0⟩ 0 "t" "a"
        "out").injectedMessages = [loopWarningMessage "t" 1] ∧
    (wrappedToolCall ⟨[⟨"t", "a", 0⟩, ⟨"t", "a", 0⟩], 0⟩ 0 "t" "a"
        "out").executed = true ∧
    (wrappedToolCall ⟨[⟨"t", "a", 0⟩, ⟨"t", "a", 0⟩], 0⟩ 0 "t" "a"
        "out").result = "out" :=
  loop_guard_warns_and_executes ⟨[⟨"t", "a", 0⟩, ⟨"t", "a", 0⟩], 0⟩ 0
    "t" "a" "out" (by decide)

/-- C10.  saveGeneratedFiles is not atomic with respect to version
control: when git commit / stage fails (gitOk = false, the thrown error
is caught and swallowed at lines 290-292), the generatedFilesMap is
still replaced exactly as in the successful case, the same new
FileStates are returned, and no commit or stage is recorded - so the
store map can diverge from the files at git HEAD. -/
theorem saveGeneratedFiles_git_failure_swallowed
    (createPatch : String → String → String → String) (now : Nat)
    (templateAllFiles : List (String × String)) (st : FMState)
    (files : List FileOutputType) (commitMessage : Option String) :
    (saveGeneratedFiles createPatch false now templateAllFiles st files
        commitMessage).1.generatedFilesMap =
      (saveGeneratedFiles createPatch true now templateAllFiles st files
        commitMessage).1.generatedFilesMap ∧
    (saveGeneratedFiles createPatch false now templateAllFiles st files
        commitMessage).2 =
      (saveGeneratedFiles createPatch true now templateAllFiles st files
        commitMessage).2 ∧
    (saveGeneratedFiles createPatch false now templateAllFiles st files
        commitMessage).1.gitLog = st.gitLog := by
  unfold saveGeneratedFiles
  rcases commitMessage with _ | m <;>
    by_cases hsc : (!(saveLoop createPatch now templateAllFiles
        st.generatedFilesMap files st.generatedFilesMap).2.isEmpty &&
      (saveLoop createPatch now templateAllFiles st.generatedFilesMap
        files st.generatedFilesMap).2.any
          (fun fs => fs.lastDiff != "")) = true <;>
    simp [hsc]

/-- Helper: the JS `in`-style existence check of upsertFile agrees with
lookupFile. -/
theorem any_key_eq_isSome (p : String) :
    ∀ (m : FilesMap),
      List.any m (fun kv => kv.1 == p) = (lookupFile m p).isSome := by
  intro m
  induction m with
  | nil => rfl
  | cons a t ih =>
    by_cases h : a.1 = p <;> simp [lookupFile, h, ih]

/-- Helper: lookup after in-place rewrite of every entry keyed p. -/
theorem lookupFile_map_assign (p : String) (v : FileState) (k : String) :
    ∀ (m : FilesMap),
    lookupFile (List.map (fun kv => if kv.1 = p then (p, v) else kv) m) k =
      if k = p then (lookupFile m p).map (fun _ => v)
      else lookupFile m k := by
  intro m
  induction m with
  | nil =>
    simp only [List.map_nil, lookupFile]
    split <;> rfl
  | cons a t ih =>
    obtain ⟨a1, a2⟩ := a
    by_cases hap : a1 = p
    · subst hap
      by_cases hkp : k = a1
      · subst hkp
        simp [lookupFile]
      · simp [lookupFile, hkp, Ne.symm hkp, ih]
    · by_cases hak : a1 = k
      · subst hak
        simp [lookupFile, hap]
      · by_cases hkp : k = p
        · subst hkp
          simp [lookupFile, hap, hak, ih]
        · simp [lookupFile, hap, hak, hkp, ih]

/-- Helper: lookup after appending a single fresh entry. -/
theorem lookupFile_append_single (p : String) (v : FileState)
    (k : String) :
    ∀ (m : FilesMap),
    lookupFile (List.append m [(p, v)]) k =
      if (lookupFile m k).isSome then lookupFile m k
      else if k = p then some v else none := by
  intro m
  induction m with
  | nil =>
    by_cases hkp : k = p
    · subst hkp
      simp [lookupFile]
    · simp [lookupFile, hkp, Ne.symm hkp]
  | cons a t ih =>
    simp only [List.append_eq] at ih ⊢
    by_cases hak : a.1 = k <;>
      simp [lookupFile, hak, ih]

/-- Helper: the JS object assignment filesMap[p] = v, as seen by
lookups. -/
theorem lookupFile_upsert (m : FilesMap) (p : String) (v : FileState)
    (k : String) :
    lookupFile (upsertFile m p v) k =
      if k = p then some v else lookupFile m k := by
  unfold upsertFile
  by_cases hany : List.any m (fun kv => kv.1 == p) = true
  · rw [if_pos hany, lookupFile_map_assign]
    have hsome : (lookupFile m p).isSome := by
      rw [← any_key_eq_isSome]
      exact hany
    cases hl : lookupFile m p with
    | none => rw [hl] at hsome; simp at hsome
    | some a => simp [hl]
  · rw [if_neg hany, lookupFile_append_single]
    have hnone : lookupFile m p = none := by
      cases hl : lookupFile m p with
      | none => rfl
      | some a =>
        exact absurd (by rw [any_key_eq_isSome, hl]; rfl) hany
    by_cases hkp : k = p
    · subst hkp
      simp [hnone]
    · cases hl : lookupFile m k with
      | none => simp [hl, hkp]
      | some a => simp [hl, hkp]

/-- Helper: the save loop does not disturb keys outside the saved file
list. -/
theorem saveLoop_lookup_untouched
    (createPatch : String → String → String → String) (now : Nat)
    (templateAllFiles : List (String × String)) (origMap : FilesMap)
    (k : String) :
    ∀ (files : List FileOutputType) (m : FilesMap),
      (∀ f ∈ files, f.filePath ≠ k) →
      lookupFile (saveLoop createPatch now templateAllFiles origMap
        files m).1 k = lookupFile m k := by
  intro files
  induction files with
  | nil => intro m _; rfl
  | cons f rest ih =>
    intro m hf
    have h1 : f.filePath ≠ k := hf f (List.mem_cons_self f rest)
    simp only [saveLoop]
    rw [ih _ (fun g hg => hf g (List.mem_cons_of_mem f hg)),
      lookupFile_upsert, if_neg (Ne.symm h1)]

/-- Helper: after the save loop, every saved path (for a
duplicate-free file list) maps to the saved contents. -/
theorem saveLoop_lookup_written
    (createPatch : String → String → String → String) (now : Nat)
    (templateAllFiles : List (String × String)) (origMap : FilesMap) :
    ∀ (files : List FileOutputType) (m : FilesMap),
      (files.map (fun f => f.filePath)).Nodup →
      ∀ f ∈ files,
        (lookupFile (saveLoop createPatch now templateAllFiles origMap
          files m).1 f.filePath).map (fun fs => fs.fileContents) =
        some f.fileContents := by
  intro files
  induction files with
  | nil => intro m _ f hf; cases hf
  | cons g rest ih =>
    intro m hnd f hf
    rcases List.mem_cons.mp hf with rfl | hf2
    · have hnotin : ∀ h ∈ rest, h.filePath ≠ f.filePath := by
        intro h hh he
        exact (List.nodup_cons.mp hnd).1
          (List.mem_map.mpr ⟨h, hh, he⟩)
      simp only [saveLoop]
      rw [saveLoop_lookup_untouched createPatch now templateAllFiles
        origMap f.filePath rest _ hnotin, lookupFile_upsert, if_pos rfl]
      rfl
    · exact ih _ (List.nodup_cons.mp hnd).2 f hf2

/-- Helper: when every saved file already has its own contents stored
under its path, the save loop produces only empty diffs. -/
theorem saveLoop_diffs_empty
    (createPatch : String → String → String → String) (now : Nat)
    (templateAllFiles : List (String × String)) (origMap : FilesMap) :
    ∀ (files : List FileOutputType) (m : FilesMap),
      (files.map (fun f => f.filePath)).Nodup →
      (∀ f ∈ files, (lookupFile m f.filePath).map
        (fun fs => fs.fileContents) = some f.fileContents) →
      ∀ fs ∈ (saveLoop createPatch now templateAllFiles origMap
        files m).2, fs.lastDiff = "" := by
  intro files
  induction files with
  | nil => intro m _ _ fs hfs; cases hfs
  | cons g rest ih =>
    intro m hnd hpre fs hfs
    obtain ⟨old, hold, holdc⟩ :=
      Option.map_eq_some'.mp (hpre g (List.mem_cons_self g rest))
    simp only [saveLoop, List.mem_cons] at hfs
    rcases hfs with rfl | hfs2
    · simp [hold, holdc]
    · refine ih _ (List.nodup_cons.mp hnd).2 ?_ fs hfs2
      intro h hh
      rw [lookupFile_upsert, if_neg]
      · exact hpre h (List.mem_cons_of_mem g hh)
      · intro he
        exact (List.nodup_cons.mp hnd).1 (List.mem_map.mpr ⟨h, hh, he⟩)

/-- Helper: the two components of saveGeneratedFiles in terms of the
save loop, independent of the git branches. -/
theorem saveGeneratedFiles_components
    (createPatch : String → String → String → String) (gitOk : Bool)
    (now : Nat) (templateAllFiles : List (String × String))
    (st : FMState) (files : List FileOutputType)
    (commitMessage : Option String) :
    (saveGeneratedFiles createPatch gitOk now templateAllFiles st files
      commitMessage).1.generatedFilesMap =
      (saveLoop createPatch now templateAllFiles st.generatedFilesMap
        files st.generatedFilesMap).1 ∧
    (saveGeneratedFiles createPatch gitOk now templateAllFiles st files
      commitMessage).2 =
      (saveLoop createPatch now templateAllFiles st.generatedFilesMap
        files st.generatedFilesMap).2 := by
  unfold saveGeneratedFiles
  rcases commitMessage with _ | m <;> cases gitOk <;>
    by_cases hsc : (!(saveLoop createPatch now templateAllFiles
        st.generatedFilesMap files st.generatedFilesMap).2.isEmpty &&
      (saveLoop createPatch now templateAllFiles st.generatedFilesMap
        files st.generatedFilesMap).2.any
          (fun fs => fs.lastDiff != "")) = true <;>
    simp [hsc]

/-- Helper: when no produced diff is non-empty, the git log is left
unchanged (neither commit nor stage happens). -/
theorem saveGeneratedFiles_no_commit
    (createPatch : String → String → String → String) (gitOk : Bool)
    (now : Nat) (templateAllFiles : List (String × String))
    (st : FMState) (files : List FileOutputType)
    (commitMessage : Option String)
    (h : (saveLoop createPatch now templateAllFiles st.generatedFilesMap
      files st.generatedFilesMap).2.any (fun fs => fs.lastDiff != "") =
      false) :
    (saveGeneratedFiles createPatch gitOk now templateAllFiles st files
      commitMessage).1.gitLog = st.gitLog := by
  unfold saveGeneratedFiles
  simp [h]

/-- C7 (counterexample).  The claim quantifies over every list of files
F; it fails when F repeats a path.  With F = [(p, "a"), (p, "b")], the
second identical call compares each entry against the last write of the
previous call, finds changed contents, produces two non-empty diffs
(jsdiff createPatch is never the empty string, modelled here by a
concrete non-empty patch function) and performs a second git commit. -/
theorem saveGeneratedFiles_duplicate_paths_second_call_commits :
    ((saveGeneratedFiles (fun p _ _ => "patch " ++ p) true 0 []
        ((saveGeneratedFiles (fun p _ _ => "patch " ++ p) true 0 []
          ⟨[], []⟩ [⟨"p", "a", "x"⟩, ⟨"p", "b", "x"⟩] (some "m")).1)
        [⟨"p", "a", "x"⟩, ⟨"p", "b", "x"⟩] (some "m")).2.map
      (fun fs => fs.lastDiff)) = ["patch p", "patch p"] ∧
    (saveGeneratedFiles (fun p _ _ => "patch " ++ p) true 0 []
        ((saveGeneratedFiles (fun p _ _ => "patch " ++ p) true 0 []
          ⟨[], []⟩ [⟨"p", "a", "x"⟩, ⟨"p", "b", "x"⟩] (some "m")).1)
        [⟨"p", "a", "x"⟩, ⟨"p", "b", "x"⟩] (some "m")).1.gitLog.length = 2 := by
  decide

/-- C7 (amended).  For a file list without duplicate paths, calling
saveGeneratedFiles twice with the identical list yields an empty
lastDiff for every file on the second call, and the second call touches
the git log with neither a commit nor a stage. -/
theorem saveGeneratedFiles_idempotent_second_save
    (createPatch : String → String → String → String) (gitOk : Bool)
    (now1 now2 : Nat) (templateAllFiles : List (String × String))
    (st : FMState) (files : List FileOutputType)
    (commitMessage : Option String)
    (hnd : (files.map (fun f => f.filePath)).Nodup) :
    (∀ fs ∈ (saveGeneratedFiles createPatch gitOk now2 templateAllFiles
        (saveGeneratedFiles createPatch gitOk now1 templateAllFiles st
          files commitMessage).1 files commitMessage).2,
      fs.lastDiff = "") ∧
    (saveGeneratedFiles createPatch gitOk now2 templateAllFiles
        (saveGeneratedFiles createPatch gitOk now1 templateAllFiles st
          files commitMessage).1 files commitMessage).1.gitLog =
      (saveGeneratedFiles createPatch gitOk now1 templateAllFiles st
        files commitMessage).1.gitLog := by
  have hmap := (saveGeneratedFiles_components createPatch gitOk now1
    templateAllFiles st files commitMessage).1
  have hpre : ∀ f ∈ files,
      (lookupFile (saveGeneratedFiles createPatch gitOk now1
        templateAllFiles st files commitMessage).1.generatedFilesMap
        f.filePath).map (fun fs => fs.fileContents) =
      some f.fileContents := by
    rw [hmap]
    exact saveLoop_lookup_written createPatch now1 templateAllFiles
      st.generatedFilesMap files st.generatedFilesMap hnd
  have hdiff : ∀ fs ∈ (saveLoop createPatch now2 templateAllFiles
      (saveGeneratedFiles createPatch gitOk now1 templateAllFiles st
        files commitMessage).1.generatedFilesMap files
      (saveGeneratedFiles createPatch gitOk now1 templateAllFiles st
        files commitMessage).1.generatedFilesMap).2,
      fs.lastDiff = "" :=
    saveLoop_diffs_empty createPatch now2 templateAllFiles _ files _
      hnd hpre
  constructor
  · intro fs hfs
    rw [(saveGeneratedFiles_components createPatch gitOk now2
      templateAllFiles _ files commitMessage).2] at hfs
    exact hdiff fs hfs
  · apply saveGeneratedFiles_no_commit
    rw [List.any_eq_false]
    intro fs hfs
    simp [hdiff fs hfs]

/-- C7 (witness): a concrete two-file save repeated with distinct
paths. -/
theorem saveGeneratedFiles_idempotent_second_save_witness :
    (∀ fs ∈ (saveGeneratedFiles (fun p _ _ => "patch " ++ p) true 7 []
        ((saveGeneratedFiles (fun p _ _ => "patch " ++ p) true 3 []
          ⟨[], []⟩ [⟨"a.ts", "hello", "main"⟩, ⟨"b.ts", "world", "util"⟩]
          (some "feat: phase")).1)
        [⟨"a.ts", "hello", "main"⟩, ⟨"b.ts", "world", "util"⟩]
        (some "feat: phase")).2,
      fs.lastDiff = "") ∧
    (saveGeneratedFiles (fun p _ _ => "patch " ++ p) true 7 []
        ((saveGeneratedFiles (fun p _ _ => "patch " ++ p) true 3 []
          ⟨[], []⟩ [⟨"a.ts", "hello", "main"⟩, ⟨"b.ts", "world", "util"⟩]
          (some "feat: phase")).1)
        [⟨"a.ts", "hello", "main"⟩, ⟨"b.ts", "world", "util"⟩]
        (some "feat: phase")).1.gitLog =
      (saveGeneratedFiles (fun p _ _ => "patch " ++ p) true 3 []
        ⟨[], []⟩ [⟨"a.ts", "hello", "main"⟩, ⟨"b.ts", "world", "util"⟩]
        (some "feat: phase")).1.gitLog :=
  saveGeneratedFiles_idempotent_second_save (fun p _ _ => "patch " ++ p)
    true 3 7 [] ⟨[], []⟩
    [⟨"a.ts", "hello", "main"⟩, ⟨"b.ts", "world", "util"⟩]
    (some "feat: phase") (by decide)

/-- Helper: a migrated file never has old-format keys again. -/
theorem hasOldFormat_migrateFile (f : MigFile) :
    hasOldFormat (migrateFile f) = false := by
  unfold migrateFile
  split
  · rfl
  · next h => simpa using h

/-- Helper: the dedup sieve emits pairwise-distinct keys, none of which
lies in the initial seen set. -/
theorem dedupByKey_keys (now : Nat) :
    ∀ (l : List MigMessage) (seen : List String),
      ((dedupByKey now l seen).map (msgKey now)).Nodup ∧
      ∀ k ∈ (dedupByKey now l seen).map (msgKey now), k ∉ seen := by
  intro l
  induction l with
  | nil => intro seen; exact ⟨List.nodup_nil, by simp [dedupByKey]⟩
  | cons m ms ih =>
    intro seen
    by_cases hk : msgKey now m ∈ seen
    · simpa [dedupByKey, hk] using ih seen
    · obtain ⟨ihn, ihs⟩ := ih (msgKey now m :: seen)
      refine ⟨?_, ?_⟩
      · simp only [dedupByKey, if_neg hk, List.map_cons]
        refine List.nodup_cons.mpr ⟨?_, ihn⟩
        intro hmem
        exact ihs _ hmem (List.mem_cons_self _ _)
      · simp only [dedupByKey, if_neg hk, List.map_cons]
        intro k hkmem
        rcases List.mem_cons.mp hkmem with rfl | hrest
        · exact hk
        · intro hks
          exact ihs k hrest (List.mem_cons_of_mem _ hks)

/-- Helper: the dedup sieve is the identity on a list whose keys are
already pairwise distinct and disjoint from the seen set. -/
theorem dedupByKey_eq_self (now : Nat) :
    ∀ (l : List MigMessage) (seen : List String),
      (l.map (msgKey now)).Nodup →
      (∀ k ∈ l.map (msgKey now), k ∉ seen) →
      dedupByKey now l seen = l := by
  intro l
  induction l with
  | nil => intro seen _ _; rfl
  | cons m ms ih =>
    intro seen hnd hdisj
    have hk : msgKey now m ∉ seen :=
      hdisj _ (List.mem_cons_self _ _)
    simp only [dedupByKey, if_neg hk]
    congr 1
    refine ih _ (List.nodup_cons.mp (by simpa using hnd)).2 ?_
    intro k hkmem
    simp only [List.mem_cons, not_or]
    constructor
    · intro he
      subst he
      exact (List.nodup_cons.mp (by simpa using hnd)).1 hkmem
    · exact hdisj k (by simpa using List.mem_cons_of_mem (msgKey now m) hkmem)

/-- Helper: the let-free form of processConversation. -/
theorem processConversation_def (now : Nat) (l : List MigMessage) :
    processConversation now l =
      if 25 < ((dedupByKey now l []).insertionSort tsLe).length then
        ((dedupByKey now l []).insertionSort tsLe).filter
          (fun m => !isInternalMemo m)
      else (dedupByKey now l []).insertionSort tsLe := rfl

/-- Helper: the conversation cleanup emits a tsLe-sorted list. -/
theorem processConversation_sorted (now : Nat) (l : List MigMessage) :
    List.Sorted tsLe (processConversation now l) := by
  rw [processConversation_def]
  split
  · exact List.Pairwise.sublist (List.filter_sublist _)
      (List.sorted_insertionSort tsLe _)
  · exact List.sorted_insertionSort tsLe _

/-- Helper: the conversation cleanup emits pairwise-distinct keys. -/
theorem processConversation_keys_nodup (now : Nat) (l : List MigMessage) :
    ((processConversation now l).map (msgKey now)).Nodup := by
  have h1 : ((dedupByKey now l []).map (msgKey now)).Nodup :=
    (dedupByKey_keys now l []).1
  have h2 : (((dedupByKey now l []).insertionSort tsLe).map
      (msgKey now)).Nodup :=
    (((List.perm_insertionSort tsLe (dedupByKey now l [])).map
      (msgKey now)).nodup_iff).mpr h1
  rw [processConversation_def]
  split
  · exact List.Nodup.sublist
      (List.Sublist.map (msgKey now) (List.filter_sublist _)) h2
  · exact h2

/-- Helper: when the cleanup dropped internal memos, none remain. -/
theorem processConversation_no_memo (now : Nat) (l : List MigMessage)
    (h : 25 < ((dedupByKey now l []).insertionSort tsLe).length) :
    ∀ m ∈ processConversation now l, isInternalMemo m = false := by
  rw [processConversation_def, if_pos h]
  intro m hm
  have := List.of_mem_filter hm
  simpa using this

/-- Helper: the conversation cleanup is idempotent. -/
theorem processConversation_idem (now : Nat) (l : List MigMessage) :
    processConversation now (processConversation now l) =
      processConversation now l := by
  have hded : dedupByKey now (processConversation now l) [] =
      processConversation now l :=
    dedupByKey_eq_self now _ _ (processConversation_keys_nodup now l)
      (by simp)
  have hsort : (processConversation now l).insertionSort tsLe =
      processConversation now l :=
    (processConversation_sorted now l).insertionSort_eq
  rw [processConversation_def (l := processConversation now l), hded,
    hsort]
  split
  · next h25 =>
    -- more than 25 messages survive, so the first pass already ran the
    -- memo filter: nothing is filtered again
    have horig : 25 < ((dedupByKey now l []).insertionSort tsLe).length := by
      rw [processConversation_def] at h25
      by_cases hc : 25 < ((dedupByKey now l []).insertionSort tsLe).length
      · exact hc
      · rw [if_neg hc] at h25
        exact absurd h25 hc
    have hmemo := processConversation_no_memo now l horig
    exact List.filter_eq_self.mpr (fun m hm => by simp [hmemo m hm])
  · rfl

/-- Helper: a generated project name is never the empty string (it
always contains the separator and the fresh nanoid). -/
theorem generateProjectName_ne_empty (base : Option String)
    (nanoid : String) (maxPrefixLength : Nat) :
    generateProjectName base nanoid maxPrefixLength ≠ "" := by
  unfold generateProjectName
  intro h
  have hlen := congrArg String.length h
  rw [String.length_append, String.length_append,
    show String.length "-" = 1 from rfl,
    show String.length "" = 0 from rfl] at hlen
  omega

/-- C8.  State migration is a fixed point: whenever migrateIfNeeded
rewrites a state (returns some s2), applying it again to s2 returns
null - no further change.  The clock (Date.now()) and the fresh nanoid
are the same parameters in both applications; the second application
returns none for every choice of them as well, but the theorem fixes
them as the claim speaks of re-running the same migration. -/
theorem migrateIfNeeded_fixed_point (now : Nat) (nanoid : String)
    (s s2 : MigState) (h : migrateIfNeeded now nanoid s = some s2) :
    migrateIfNeeded now nanoid s2 = none := by
  unfold migrateIfNeeded at h
  split at h
  case isFalse => exact absurd h (by simp)
  case isTrue hflags =>
  have hs2 := Option.some.inj h
  subst hs2
  have h1 : filesNeedMigration
      { generatedFilesMap := migratedFilesMap s,
        conversationMessages := migratedConversation now s,
        inferenceContext := (migratedInferenceContext s).1,
        hasLatestScreenshot := false,
        projectUpdatesAccumulator := some [],
        templateDetails := none,
        templateName := (migratedTemplate s).1,
        blueprint := s.blueprint,
        projectName := (migratedProjectName nanoid s).1,
        query := s.query } = false := by
    unfold filesNeedMigration migratedFilesMap
    simp only [List.any_map, List.any_eq_false, Function.comp]
    intro kf _
    simp [hasOldFormat_migrateFile]
  have hconvfix : migratedConversation now
      { generatedFilesMap := migratedFilesMap s,
        conversationMessages := migratedConversation now s,
        inferenceContext := (migratedInferenceContext s).1,
        hasLatestScreenshot := false,
        projectUpdatesAccumulator := some [],
        templateDetails := none,
        templateName := (migratedTemplate s).1,
        blueprint := s.blueprint,
        projectName := (migratedProjectName nanoid s).1,
        query := s.query } = migratedConversation now s := by
    unfold migratedConversation
    by_cases hemp : s.conversationMessages.isEmpty
    · simp [hemp]
    · simp only [hemp, Bool.false_eq_true, if_false]
      by_cases hemp2 : (processConversation now
          s.conversationMessages).isEmpty
      · simp [hemp2]
      · simp [hemp2, processConversation_idem]
  have h2 : convNeedsMigration now
      { generatedFilesMap := migratedFilesMap s,
        conversationMessages := migratedConversation now s,
        inferenceContext := (migratedInferenceContext s).1,
        hasLatestScreenshot := false,
        projectUpdatesAccumulator := some [],
        templateDetails := none,
        templateName := (migratedTemplate s).1,
        blueprint := s.blueprint,
        projectName := (migratedProjectName nanoid s).1,
        query := s.query } = false := by
    unfold convNeedsMigration
    rw [hconvfix]
    simp
  have h3 : (migratedInferenceContext
      { generatedFilesMap := migratedFilesMap s,
        conversationMessages := migratedConversation now s,
        inferenceContext := (migratedInferenceContext s).1,
        hasLatestScreenshot := false,
        projectUpdatesAccumulator := some [],
        templateDetails := none,
        templateName := (migratedTemplate s).1,
        blueprint := s.blueprint,
        projectName := (migratedProjectName nanoid s).1,
        query := s.query }).2 = false := by
    unfold migratedInferenceContext
    cases hic : s.inferenceContext with
    | none => simp [migratedInferenceContext, hic]
    | some ic =>
      by_cases hk : ic.hasUserApiKeys = true <;>
        simp [migratedInferenceContext, hic, hk]
  have h7 : (migratedProjectName nanoid
      { generatedFilesMap := migratedFilesMap s,
        conversationMessages := migratedConversation now s,
        inferenceContext := (migratedInferenceContext s).1,
        hasLatestScreenshot := false,
        projectUpdatesAccumulator := some [],
        templateDetails := none,
        templateName := (migratedTemplate s).1,
        blueprint := s.blueprint,
        projectName := (migratedProjectName nanoid s).1,
        query := s.query }).2 = false := by
    have htruthy : jsTruthy (migratedProjectName nanoid s).1 = true := by
      unfold migratedProjectName
      by_cases hp : jsTruthy s.projectName = true
      · simp [hp]
      · simp only [hp, Bool.false_eq_true, if_false]
        simp [jsTruthy, generateProjectName_ne_empty]
    have haux : ∀ (t : MigState), jsTruthy t.projectName = true →
        (migratedProjectName nanoid t).2 = false := by
      intro t ht
      unfold migratedProjectName
      simp [ht]
    exact haux _ htruthy
  unfold migrateIfNeeded needsMigration
  rw [h1, h2, h3, h7]
  simp [migratedTemplate]

/-- C8 (witness): a state that still carries a legacy templateDetails
blob and userApiKeys migrates once, and the migrated state needs no
further migration. -/
theorem migrateIfNeeded_fixed_point_witness :
    migrateIfNeeded 7 "n1"
      { generatedFilesMap :=
          [("a.ts", ⟨none, none, none, some "a.ts", some "x", some "p", some ""⟩)],
        conversationMessages := [],
        inferenceContext := some ⟨true⟩,
        hasLatestScreenshot := true,
        projectUpdatesAccumulator := none,
        templateDetails := some ⟨"react-vite"⟩,
        templateName := none,
        blueprint := none,
        projectName := none,
        query := some "build a todo app" } =
      some
      { generatedFilesMap :=
          [("a.ts", ⟨some "a.ts", some "x", some "p", none, none, none, none⟩)],
        conversationMessages := [],
        inferenceContext := some ⟨false⟩,
        hasLatestScreenshot := false,
        projectUpdatesAccumulator := some [],
        templateDetails := none,
        templateName := some "react-vite",
        blueprint := none,
        projectName := some "react-vite-n1",
        query := some "build a todo app" } ∧
    migrateIfNeeded 7 "n1"
      { generatedFilesMap :=
          [("a.ts", ⟨some "a.ts", some "x", some "p", none, none, none, none⟩)],
        conversationMessages := [],
        inferenceContext := some ⟨false⟩,
        hasLatestScreenshot := false,
        projectUpdatesAccumulator := some [],
        templateDetails := none,
        templateName := some "react-vite",
        blueprint := none,
        projectName := some "react-vite-n1",
        query := some "build a todo app" } = none := by
  constructor
  · decide
  · exact migrateIfNeeded_fixed_point 7 "n1"
      { generatedFilesMap :=
          [("a.ts", ⟨none, none, none, some "a.ts", some "x", some "p", some ""⟩)],
        conversationMessages := [],
        inferenceContext := some ⟨true⟩,
        hasLatestScreenshot := true,
        projectUpdatesAccumulator := none,
        templateDetails := some ⟨"react-vite"⟩,
        templateName := none,
        blueprint := none,
        projectName := none,
        query := some "build a todo app" }
      { generatedFilesMap :=
          [("a.ts", ⟨some "a.ts", some "x", some "p", none, none, none, none⟩)],
        conversationMessages := [],
        inferenceContext := some ⟨false⟩,
        hasLatestScreenshot := false,
        projectUpdatesAccumulator := some [],
        templateDetails := none,
        templateName := some "react-vite",
        blueprint := none,
        projectName := some "react-vite-n1",
        query := some "build a todo app" }
      (by decide)
